import Mathlib

/-!
# EcoVision domain core — shallow embedding and verification

A shallow Lean embedding of the EcoVision per-tenant record store:
the classification store and its derived reusability score
(`ClassificationContext`), the report store with its ownership rules and
download accounting (`ReportContext`), the session/identity lifecycle
(`AuthContext`), and the notification deduplication layer
(`NotificationContext`).  Times are modelled as natural-number
milliseconds (JavaScript `Date.now()`), browser `localStorage` as an
explicit association-list store, and React state as explicit state
passing.
-/

set_option linter.unusedVariables false

namespace EcoVision

/-- JavaScript `String.prototype.includes`: case-sensitive substring
containment. -/
def jsIncludes (s needle : String) : Bool :=
  decide (needle.toList <:+: s.toList)

/-- The three reusability labels produced by `getReusabilityLabel`. -/
inductive ReusabilityLabel where
  | highlyReusable
  | moderate
  | nonReusable
deriving DecidableEq, Repr

/-- `calculateReusabilityScore` from `ClassificationContext`: base score 70,
minus 15 per hazardous material, minus 30 for a category containing
`"Battery"`, plus 20 for `"Cable"` or `"Accessory"`, plus 10 for `"Phone"`
or `"Computer"`, clamped to `[0, 100]`.  The `itemName` parameter is
accepted (as in the source) but unused. -/
def calculateReusabilityScore (itemName category : String)
    (hazardousMaterials : List String) : Int :=
  let score : Int := 70
  let score := score - (hazardousMaterials.length : Int) * 15
  let score := if jsIncludes category "Battery" then score - 30 else score
  let score :=
    if jsIncludes category "Cable" || jsIncludes category "Accessory" then
      score + 20
    else score
  let score :=
    if jsIncludes category "Phone" || jsIncludes category "Computer" then
      score + 10
    else score
  max 0 (min 100 score)

/-- `getReusabilityLabel` from `ClassificationContext`. -/
def getReusabilityLabel (score : Int) : ReusabilityLabel :=
  if score ≥ 70 then .highlyReusable
  else if score ≥ 40 then .moderate
  else .nonReusable

/-- Case-insensitive substring containment, as the spec words the category
matching rule ("case-insensitive substring containment"): both sides are
lower-cased character-wise before the containment test. -/
def specContainsCI (category needle : String) : Bool :=
  decide ((needle.toList.map Char.toLower) <:+: (category.toList.map Char.toLower))

/-- The reusability-score formula exactly as the claim states it, with
*case-insensitive* category matching.  Written from the spec's words, to be
compared with `calculateReusabilityScore` (the source). -/
def claimReusabilityScoreCI (category : String)
    (hazardousMaterials : List String) : Int :=
  let score : Int := 70
  let score := score - (hazardousMaterials.length : Int) * 15
  let score := if specContainsCI category "Battery" then score - 30 else score
  let score :=
    if specContainsCI category "Cable" || specContainsCI category "Accessory" then
      score + 20
    else score
  let score :=
    if specContainsCI category "Phone" || specContainsCI category "Computer" then
      score + 10
    else score
  max 0 (min 100 score)

/-- The reusability-score formula as the spec words it, but with
*case-sensitive* substring containment (the amended matching rule).
Written from the spec's words, to be compared with
`calculateReusabilityScore` (the source). -/
def specReusabilityScore (category : String)
    (hazardousMaterials : List String) : Int :=
  let score : Int := 70
  let score := score - (hazardousMaterials.length : Int) * 15
  let score := if jsIncludes category "Battery" then score - 30 else score
  let score :=
    if jsIncludes category "Cable" || jsIncludes category "Accessory" then
      score + 20
    else score
  let score :=
    if jsIncludes category "Phone" || jsIncludes category "Computer" then
      score + 10
    else score
  max 0 (min 100 score)

/-! ## Identities (`AuthContext`) -/

/-- The `role` field of a stored user: `'user' | 'admin'`. -/
inductive Role where
  | user
  | admin
deriving DecidableEq, Repr

/-- The `userType` field of a stored user: `'general' | 'admin'`. -/
inductive UserType where
  | general
  | admin
deriving DecidableEq, Repr

/-- The `User` record of `AuthContext`, restricted to the fields the domain
logic reads. -/
structure User where
  id : String
  name : String
  email : String
  role : Role
  userType : UserType
deriving DecidableEq, Repr

/-- `isAdmin` from `AuthContext`:
`user?.role === 'admin' || user?.userType === 'admin'`. -/
def isAdminU (u : User) : Bool :=
  u.role == Role.admin || u.userType == UserType.admin

/-- `isAdmin` evaluated against the possibly-absent current user. -/
def isAdminOf : Option User → Bool
  | some u => isAdminU u
  | none => false

/-! ## Classification store (`ClassificationContext`) -/

/-- `safetyLevel ∈ {low, medium, high}`. -/
inductive SafetyLevel where
  | low
  | medium
  | high
deriving DecidableEq, Repr

/-- The `ClassificationResult` record.  `confidence` (a float in the source,
never used arithmetically by the store) is modelled as a natural number. -/
structure ClassificationResult where
  id : String
  userId : String
  itemName : String
  category : String
  hazardousMaterials : List String
  safetyLevel : SafetyLevel
  recommendations : List String
  confidence : Nat
  reusabilityScore : Int
  reusabilityLabel : ReusabilityLabel
  imageUrl : String
  timestamp : Nat
deriving DecidableEq, Repr

/-- The caller-supplied draft for `addClassification`:
`Omit<ClassificationResult, 'id' | 'userId' | 'timestamp'>` — notably it
*does* carry a `reusabilityScore` and `reusabilityLabel` chosen by the
caller. -/
structure ClassificationDraft where
  itemName : String
  category : String
  hazardousMaterials : List String
  safetyLevel : SafetyLevel
  recommendations : List String
  confidence : Nat
  reusabilityScore : Int
  reusabilityLabel : ReusabilityLabel
  imageUrl : String
deriving DecidableEq, Repr

/-- `localStorage` as the classification store sees it: the global
`registeredUsers` list and one `classifications_${uid}` entry per user.
`localStorage.setItem` is modelled by prepending a binding that shadows any
older binding for the same key; lookup reads the first binding. -/
structure Storage where
  registeredUsers : List User
  classificationsByUser : List (String × List ClassificationResult)
deriving DecidableEq, Repr

/-- `JSON.parse(localStorage.getItem('classifications_' + uid) || '[]')`. -/
def loadClassifications (st : Storage) (uid : String) : List ClassificationResult :=
  match st.classificationsByUser.find? (fun p => p.1 == uid) with
  | some p => p.2
  | none => []

/-- `localStorage.setItem('classifications_' + uid, JSON.stringify(l))`. -/
def storeClassifications (st : Storage) (uid : String)
    (l : List ClassificationResult) : Storage :=
  { st with classificationsByUser := (uid, l) :: st.classificationsByUser }

/-- The record `addClassification` commits: caller fields spread first, then
`id`, `userId`, `timestamp`, and the *recomputed* `reusabilityScore` and
`reusabilityLabel` written on top. -/
def mkClassification (u : User) (d : ClassificationDraft) (now : Nat) :
    ClassificationResult :=
  let score := calculateReusabilityScore d.itemName d.category d.hazardousMaterials
  { id := "classification-" ++ toString now
    userId := u.id
    itemName := d.itemName
    category := d.category
    hazardousMaterials := d.hazardousMaterials
    safetyLevel := d.safetyLevel
    recommendations := d.recommendations
    confidence := d.confidence
    reusabilityScore := score
    reusabilityLabel := getReusabilityLabel score
    imageUrl := d.imageUrl
    timestamp := now }

/-- `addClassification` from `ClassificationContext`: requires a logged-in
user, prepends the committed record to the in-memory list, and writes the
updated list to the user's `localStorage` key. -/
def addClassification (user : Option User) (d : ClassificationDraft) (now : Nat)
    (classifications : List ClassificationResult) (st : Storage) :
    List ClassificationResult × Storage :=
  match user with
  | none => (classifications, st)
  | some u =>
      let updated := mkClassification u d now :: classifications
      (updated, storeClassifications st u.id updated)

/-- `getUserClassifications`: the in-memory list filtered to the current
user's own records. -/
def getUserClassifications (user : Option User)
    (classifications : List ClassificationResult) : List ClassificationResult :=
  match user with
  | none => []
  | some u => classifications.filter (fun c => c.userId == u.id)

/-- The comparator of `getAllClassifications`'s sort:
`(a, b) => b.timestamp - a.timestamp`, i.e. newest first. -/
def newestFirst (a b : ClassificationResult) : Prop :=
  b.timestamp ≤ a.timestamp

instance : DecidableRel newestFirst :=
  fun a b => inferInstanceAs (Decidable (b.timestamp ≤ a.timestamp))

/-- `getAllClassifications`: non-admins fall back to
`getUserClassifications`; admins concatenate every registered user's stored
classification list and sort it newest-first. -/
def getAllClassifications (user : Option User)
    (classifications : List ClassificationResult) (st : Storage) :
    List ClassificationResult :=
  if !(isAdminOf user) then getUserClassifications user classifications
  else
    (st.registeredUsers.flatMap (fun u => loadClassifications st u.id)).insertionSort
      newestFirst

/-! ## Report store (`ReportContext`) -/

/-- `type ∈ {classification, summary, analysis, uploaded}`. -/
inductive ReportType where
  | classification
  | summary
  | analysis
  | uploaded
deriving DecidableEq, Repr

/-- `status ∈ {completed, processing, failed}`. -/
inductive ReportStatus where
  | completed
  | processing
  | failed
deriving DecidableEq, Repr

/-- The `Report` record.  The open-ended `content: any` payload is modelled
as an opaque string (the store never inspects it). -/
structure Report where
  id : String
  userId : String
  title : String
  type : ReportType
  content : String
  createdAt : Nat
  updatedAt : Nat
  size : String
  status : ReportStatus
  downloadCount : Nat
  isPublic : Bool
  tags : List String
deriving DecidableEq, Repr

/-- The outcomes the store surfaces through `showError` (each branch of the
source reports a distinct message), plus the UI-level empty-title rejection. -/
inductive StoreError where
  | notLoggedIn
  | notFound
  | permissionDenied
  | validationError
  | exportFailed
deriving DecidableEq, Repr

/-- `Omit<Report, 'id' | 'userId' | 'createdAt' | 'updatedAt' | 'downloadCount'>`,
the caller-supplied draft for `createReport`. -/
structure ReportDraft where
  title : String
  type : ReportType
  content : String
  size : String
  status : ReportStatus
  isPublic : Bool
  tags : List String
deriving DecidableEq, Repr

/-- `createReport` from `ReportContext`: requires a logged-in user and
prepends the new report; it performs no validation of the draft's fields. -/
def createReport (user : Option User) (d : ReportDraft) (now : Nat)
    (reports : List Report) : List Report × Option StoreError :=
  match user with
  | none => (reports, some .notLoggedIn)
  | some u =>
      let newReport : Report :=
        { id := "report-" ++ toString now
          userId := u.id
          title := d.title
          type := d.type
          content := d.content
          createdAt := now
          updatedAt := now
          size := d.size
          status := d.status
          downloadCount := 0
          isPublic := d.isPublic
          tags := d.tags }
      (newReport :: reports, none)

/-- `Partial<Report>` as passed to `updateReport`: absent fields are left
unchanged. -/
structure ReportPatch where
  title : Option String := none
  type : Option ReportType := none
  content : Option String := none
  size : Option String := none
  status : Option ReportStatus := none
  downloadCount : Option Nat := none
  isPublic : Option Bool := none
  tags : Option (List String) := none
deriving DecidableEq, Repr

/-- `{ ...report, ...updates, updatedAt: new Date() }`. -/
def applyPatch (r : Report) (p : ReportPatch) (now : Nat) : Report :=
  { r with
    title := p.title.getD r.title
    type := p.type.getD r.type
    content := p.content.getD r.content
    size := p.size.getD r.size
    status := p.status.getD r.status
    downloadCount := p.downloadCount.getD r.downloadCount
    isPublic := p.isPublic.getD r.isPublic
    tags := p.tags.getD r.tags
    updatedAt := now }

/-- `report.userId === user?.id` (false when no user is logged in, since a
string never equals `undefined`). -/
def sameOwner (user : Option User) (ownerId : String) : Bool :=
  match user with
  | some u => ownerId == u.id
  | none => false

/-- `updateReport` from `ReportContext`: not-found and permission checks,
then a map-replace of the patched report.  An error leaves the report list
untouched. -/
def updateReport (user : Option User) (id : String) (updates : ReportPatch)
    (now : Nat) (reports : List Report) : List Report × Option StoreError :=
  match reports.find? (fun r => r.id == id) with
  | none => (reports, some .notFound)
  | some report =>
      if !(isAdminOf user) && !(sameOwner user report.userId) then
        (reports, some .permissionDenied)
      else
        let updatedReport := applyPatch report updates now
        (reports.map (fun r => if r.id == id then updatedReport else r), none)

/-- `deleteReport` from `ReportContext`: same permission rule as
`updateReport`, then a filter. -/
def deleteReport (user : Option User) (id : String) (reports : List Report) :
    List Report × Option StoreError :=
  match reports.find? (fun r => r.id == id) with
  | none => (reports, some .notFound)
  | some report =>
      if !(isAdminOf user) && !(sameOwner user report.userId) then
        (reports, some .permissionDenied)
      else
        (reports.filter (fun r => !(r.id == id)), none)

/-- Export formats accepted by `downloadReport`. -/
inductive ExportFormat where
  | pdf
  | pptx
  | csv
deriving DecidableEq, Repr

/-- `downloadReport` from `ReportContext`.  The opaque export collaborator
(`generatePDFReport` / `generatePPTXReport` / `generateCSVReport`) is
modelled by the flag `exportOk`: `true` when generation completes, `false`
when it throws.  Only after a successful export does the source call
`updateReport(id, { downloadCount: report.downloadCount + 1 })`; the catch
branch merely reports the failure. -/
def downloadReport (user : Option User) (id : String) (format : ExportFormat)
    (exportOk : Bool) (now : Nat) (reports : List Report) :
    List Report × Option StoreError :=
  match reports.find? (fun r => r.id == id) with
  | none => (reports, some .notFound)
  | some report =>
      if !(isAdminOf user) && !(sameOwner user report.userId) && !report.isPublic then
        (reports, some .permissionDenied)
      else if exportOk then
        updateReport user id { downloadCount := some (report.downloadCount + 1) } now reports
      else
        (reports, some .exportFailed)

/-- `getUserReports`: the report list filtered to the current user's own
reports. -/
def getUserReports (user : Option User) (reports : List Report) : List Report :=
  match user with
  | none => []
  | some u => reports.filter (fun r => r.userId == u.id)

/-- `getAllReports`: non-admins fall back to `getUserReports`; admins see the
whole list. -/
def getAllReports (user : Option User) (reports : List Report) : List Report :=
  if !(isAdminOf user) then getUserReports user reports else reports

/-- Truthiness of `!title.trim()`: the trimmed title is empty exactly when
every character of the title is whitespace. -/
def trimmedIsEmpty (s : String) : Bool :=
  s.toList.all (fun c => c.isWhitespace)

/-- `handleCreateReport` from the `Reports` page: rejects a blank title
before ever calling the store's `createReport`; otherwise builds the draft
(`size: '1.2 MB'`, `status: 'completed'`) and creates it. -/
def handleCreateReport (user : Option User) (title : String) (type : ReportType)
    (content : String) (tags : List String) (isPublic : Bool) (now : Nat)
    (reports : List Report) : List Report × Option StoreError :=
  if trimmedIsEmpty title then (reports, some .validationError)
  else
    createReport user
      { title := title
        type := type
        content := content
        size := "1.2 MB"
        status := .completed
        isPublic := isPublic
        tags := tags } now reports

/-! ## Session lifecycle (`AuthContext.initializeAuth`) -/

/-- The decoded JWT payload: an embedded user snapshot plus issue/expiry
times in *seconds*. -/
structure TokenPayload where
  user : User
  iat : Nat
  exp : Nat
deriving DecidableEq, Repr

/-- The state of `localStorage.getItem('token')` combined with the outcome of
`jwtDecode`: absent, present but undecodable, or decoded. -/
inductive StoredToken where
  | absent
  | malformed
  | valid (t : TokenPayload)
deriving DecidableEq, Repr

/-- The two rejection modes of `initializeAuth`. -/
inductive AuthFailure where
  | expired
  | malformed
deriving DecidableEq, Repr

/-- What `initializeAuth` leaves behind: the accepted identity (if any), the
token remaining in `localStorage`, and the failure it reported (the
`'Session expired'` toast or the decode `console.error`). -/
structure AuthInitResult where
  user : Option User
  storedToken : StoredToken
  failure : Option AuthFailure
deriving DecidableEq, Repr

/-- `initializeAuth` from `AuthContext`: accepts the embedded user only when
`decoded.exp * 1000 > Date.now()`; otherwise it removes the token and
reports the failure. -/
def initializeAuth (token : StoredToken) (now : Nat) : AuthInitResult :=
  match token with
  | .absent => { user := none, storedToken := .absent, failure := none }
  | .malformed => { user := none, storedToken := .absent, failure := some .malformed }
  | .valid t =>
      if t.exp * 1000 > now then
        { user := some t.user, storedToken := .valid t, failure := none }
      else
        { user := none, storedToken := .absent, failure := some .expired }

/-! ## Notification deduplication (`NotificationContext`) -/

/-- `type ∈ {success, error, info, warning}`. -/
inductive NotifKind where
  | success
  | error
  | info
  | warning
deriving DecidableEq, Repr

/-- The `Notification` record; timestamps are `Date.now()` milliseconds. -/
structure Notification where
  id : String
  type : NotifKind
  title : String
  message : String
  timestamp : Nat
  read : Bool
deriving DecidableEq, Repr

/-- The notification `addNotification` constructs:
`id: Date.now().toString()`, unread, stamped with the current time. -/
def mkNotification (kind : NotifKind) (title message : String) (now : Nat) :
    Notification :=
  { id := toString now
    type := kind
    title := title
    message := message
    timestamp := now
    read := false }

/-- `addNotification`: prepend and keep only 10 entries
(`[newNotification, ...prev.slice(0, 9)]`). -/
def addNotification (kind : NotifKind) (title message : String) (now : Nat)
    (l : List Notification) : List Notification :=
  mkNotification kind title message now :: l.take 9

/-- The duplicate test shared by `showSuccess`/`showError`/`showInfo`/
`showWarning`: some buffered entry has the same message, the same kind, and
`Date.now() - n.timestamp.getTime() < 5000`.  (In the source a future-dated
entry makes the JS difference negative, hence `< 5000`; truncated `Nat`
subtraction yields `0 < 5000` there, the same verdict.) -/
def isRecentDuplicate (kind : NotifKind) (message : String) (now : Nat)
    (l : List Notification) : Bool :=
  l.any (fun n => n.message == message && n.type == kind && now - n.timestamp < 5000)

/-- The common body of the four `show*` helpers: insert unless a recent
duplicate is still buffered. -/
def showNotification (kind : NotifKind) (message title : String) (now : Nat)
    (l : List Notification) : List Notification :=
  if isRecentDuplicate kind message now l then l
  else addNotification kind title message now l

/-- `showSuccess(message, title = 'Success')`. -/
def showSuccess (message : String) (title : String) (now : Nat)
    (l : List Notification) : List Notification :=
  showNotification .success message title now l

/-- `showError(message, title = 'Error')`. -/
def showError (message : String) (title : String) (now : Nat)
    (l : List Notification) : List Notification :=
  showNotification .error message title now l

/-- `markAsRead`: map the matching id to `read: true`. -/
def markAsRead (id : String) (l : List Notification) : List Notification :=
  l.map (fun n => if n.id == id then { n with read := true } else n)

/-- `unreadCount = notifications.filter(n => !n.read).length`. -/
def unreadCount (l : List Notification) : Nat :=
  (l.filter (fun n => !n.read)).length

/-- The dedup-window separation property for a pair of buffered
notifications: if they agree on kind and message, their timestamps are at
least 5000 ms apart. -/
def separated (a b : Notification) : Prop :=
  a.type = b.type → a.message = b.message →
    5000 ≤ a.timestamp - b.timestamp ∨ 5000 ≤ b.timestamp - a.timestamp

instance : ∀ a b : Notification, Decidable (separated a b) := by
  intro a b
  unfold separated
  infer_instance

/-! ### Sample data for concrete witnesses -/

/-- A concrete ordinary member. -/
def sampleOwner : User :=
  { id := "u1", name := "Alice", email := "alice@x.com",
    role := .user, userType := .general }

/-- A second concrete ordinary member, a different tenant. -/
def sampleOther : User :=
  { id := "u2", name := "Bob", email := "bob@x.com",
    role := .user, userType := .general }

/-- A concrete administrator. -/
def sampleAdmin : User :=
  { id := "ua", name := "Root", email := "root@x.com",
    role := .admin, userType := .admin }

/-- A concrete classification draft. -/
def sampleDraft : ClassificationDraft :=
  { itemName := "Old Phone", category := "Mobile Phone",
    hazardousMaterials := ["Lithium"], safetyLevel := .medium,
    recommendations := ["recycle"], confidence := 80,
    reusabilityScore := 55, reusabilityLabel := .moderate,
    imageUrl := "img.png" }

/-- A concrete storage state in which `sampleOwner` and `sampleAdmin` are
registered. -/
def sampleStorage : Storage :=
  { registeredUsers := [sampleOwner, sampleAdmin],
    classificationsByUser := [] }

/-! ## Theorems -/

/-- C1 counterexample: the claim's formula performs *case-insensitive*
substring matching, but the source's `calculateReusabilityScore` uses the
case-sensitive `String.prototype.includes`.  For `category = "battery"`
(lower-case) with no hazardous materials, the code scores 70 (no match for
`"Battery"`) while the claim's case-insensitive formula scores 40. -/
theorem calculateReusabilityScore_not_caseInsensitive :
    calculateReusabilityScore "Power Bank" "battery" [] ≠
      claimReusabilityScoreCI "battery" [] := by
  decide

/-- C1 (amended): the derived reusability score equals the spec's formula
with *case-sensitive* substring containment — start at 70, subtract 15 per
hazardous material, subtract 30 for `"Battery"`, add 20 for `"Cable"` or
`"Accessory"`, add 10 for `"Phone"` or `"Computer"` (all cumulative), clamp
to `[0, 100]`; the label is `HighlyReusable` iff score ≥ 70, `Moderate` iff
40 ≤ score < 70, `NonReusable` otherwise; and
`(category = "Battery", hazardousMaterials = [Lithium, Cobalt])` yields
score 10 with label `NonReusable`. -/
theorem calculateReusabilityScore_spec_caseSensitive :
    (∀ itemName category hazardousMaterials,
        calculateReusabilityScore itemName category hazardousMaterials =
          specReusabilityScore category hazardousMaterials) ∧
    (∀ itemName category hazardousMaterials,
        0 ≤ calculateReusabilityScore itemName category hazardousMaterials ∧
        calculateReusabilityScore itemName category hazardousMaterials ≤ 100) ∧
    (∀ score : Int,
        (getReusabilityLabel score = .highlyReusable ↔ 70 ≤ score) ∧
        (getReusabilityLabel score = .moderate ↔ 40 ≤ score ∧ score < 70) ∧
        (getReusabilityLabel score = .nonReusable ↔ score < 40)) ∧
    calculateReusabilityScore "Battery Pack" "Battery" ["Lithium", "Cobalt"] = 10 ∧
    getReusabilityLabel
      (calculateReusabilityScore "Battery Pack" "Battery" ["Lithium", "Cobalt"]) =
      .nonReusable := by
  refine ⟨fun _ _ _ => rfl, ?_, ?_, by decide, by decide⟩
  · intro itemName category hazardousMaterials
    simp only [calculateReusabilityScore]
    exact ⟨le_max_left _ _, max_le (by norm_num) (min_le_left _ _)⟩
  · intro score
    unfold getReusabilityLabel
    split_ifs with h1 h2 <;>
      refine ⟨?_, ?_, ?_⟩ <;> simp <;> omega

/-- C2: `addClassification` discards any caller-supplied `reusabilityScore`
and `reusabilityLabel`: the committed state is independent of those draft
fields, and the record actually committed carries the score and label
recomputed from the draft's category and hazardous materials. -/
theorem addClassification_recomputes_derived_fields
    (u : User) (d : ClassificationDraft) (now : Nat)
    (classifications : List ClassificationResult) (st : Storage)
    (s : Int) (lab : ReusabilityLabel) :
    addClassification (some u)
        { d with reusabilityScore := s, reusabilityLabel := lab }
        now classifications st =
      addClassification (some u) d now classifications st ∧
    (addClassification (some u) d now classifications st).1.head? =
      some (mkClassification u d now) ∧
    (mkClassification u d now).reusabilityScore =
      calculateReusabilityScore d.itemName d.category d.hazardousMaterials ∧
    (mkClassification u d now).reusabilityLabel =
      getReusabilityLabel
        (calculateReusabilityScore d.itemName d.category d.hazardousMaterials) :=
  ⟨rfl, rfl, rfl, rfl⟩

/-- C8: two drafts with the same category and the same number of hazardous
materials get the same reusability score, regardless of item name,
confidence, or which hazardous-material strings appear. -/
theorem reusabilityScore_function_of_category_and_count
    (d₁ d₂ : ClassificationDraft)
    (hcat : d₁.category = d₂.category)
    (hlen : d₁.hazardousMaterials.length = d₂.hazardousMaterials.length) :
    calculateReusabilityScore d₁.itemName d₁.category d₁.hazardousMaterials =
      calculateReusabilityScore d₂.itemName d₂.category d₂.hazardousMaterials := by
  simp only [calculateReusabilityScore, hcat, hlen]

/-- Witness for C8 at two concrete drafts that differ in item name,
confidence, and the particular hazardous materials. -/
theorem reusabilityScore_function_of_category_and_count_witness :
    calculateReusabilityScore "Old Phone" "Mobile Phone" ["Lithium"] =
      calculateReusabilityScore "New Phone" "Mobile Phone" ["Mercury"] :=
  reusabilityScore_function_of_category_and_count
    { itemName := "Old Phone", category := "Mobile Phone",
      hazardousMaterials := ["Lithium"], safetyLevel := .low,
      recommendations := [], confidence := 90, reusabilityScore := 0,
      reusabilityLabel := .moderate, imageUrl := "a.png" }
    { itemName := "New Phone", category := "Mobile Phone",
      hazardousMaterials := ["Mercury"], safetyLevel := .high,
      recommendations := ["recycle"], confidence := 10, reusabilityScore := 99,
      reusabilityLabel := .highlyReusable, imageUrl := "b.png" }
    rfl rfl

/-- C9: a stored session claim whose `expiresAt` lies in the past at
validation time is rejected: the embedded identity is never accepted, the
token is removed from local storage, and the expiry is reported — forcing
re-authentication. -/
theorem initializeAuth_rejects_expired (t : TokenPayload) (now : Nat)
    (h : t.exp * 1000 < now) :
    initializeAuth (.valid t) now =
      { user := none, storedToken := .absent, failure := some .expired } := by
  simp only [initializeAuth]
  rw [if_neg (by omega)]

/-- Witness for C9 at a concrete expired token. -/
theorem initializeAuth_rejects_expired_witness :
    initializeAuth
        (.valid { user := { id := "u1", name := "A", email := "a@x.com",
                            role := .user, userType := .general },
                  iat := 0, exp := 1 })
        2000 =
      { user := none, storedToken := .absent, failure := some .expired } :=
  initializeAuth_rejects_expired _ 2000 (by norm_num)

/-- C10: for a non-admin actor the "all records" accessors coincide with the
"own records" accessors, for both reports and classifications. -/
theorem nonadmin_all_accessors_equal_own (user : Option User)
    (reports : List Report) (classifications : List ClassificationResult)
    (st : Storage) (h : isAdminOf user = false) :
    getAllReports user reports = getUserReports user reports ∧
    getAllClassifications user classifications st =
      getUserClassifications user classifications := by
  constructor <;> simp [getAllReports, getAllClassifications, h]

/-- Witness for C10 at a concrete non-admin member with mixed-tenant data. -/
theorem nonadmin_all_accessors_equal_own_witness :
    getAllReports
        (some { id := "u1", name := "A", email := "a@x.com",
                role := .user, userType := .general }) [] =
      getUserReports
        (some { id := "u1", name := "A", email := "a@x.com",
                role := .user, userType := .general }) [] ∧
    getAllClassifications
        (some { id := "u1", name := "A", email := "a@x.com",
                role := .user, userType := .general }) []
        { registeredUsers := [], classificationsByUser := [] } =
      getUserClassifications
        (some { id := "u1", name := "A", email := "a@x.com",
                role := .user, userType := .general }) [] :=
  nonadmin_all_accessors_equal_own _ _ _ _ (by decide)

/-- C3: a non-admin actor acting on another tenant's report gets
`PermissionDenied` from both `updateReport` and `deleteReport`, and the
report store is returned unchanged. -/
theorem update_delete_report_permission_denied
    (u : User) (reports : List Report) (r : Report) (patch : ReportPatch)
    (now : Nat)
    (hAdmin : isAdminU u = false)
    (hOwner : r.userId ≠ u.id)
    (hFind : reports.find? (fun x => x.id == r.id) = some r) :
    updateReport (some u) r.id patch now reports =
      (reports, some .permissionDenied) ∧
    deleteReport (some u) r.id reports = (reports, some .permissionDenied) := by
  have h1 : isAdminOf (some u) = false := hAdmin
  have h2 : sameOwner (some u) r.userId = false := by
    simp [sameOwner, hOwner]
  constructor <;> simp [updateReport, deleteReport, hFind, h1, h2]

/-- Witness for C3: member `u2` attempts to update and delete `u1`'s
report. -/
theorem update_delete_report_permission_denied_witness :
    updateReport
        (some { id := "u2", name := "B", email := "b@x.com",
                role := .user, userType := .general })
        "r1" { title := some "hacked" } 5
        [{ id := "r1", userId := "u1", title := "Mine", type := .summary,
           content := "c", createdAt := 0, updatedAt := 0, size := "1 MB",
           status := .completed, downloadCount := 0, isPublic := false,
           tags := [] }] =
      ([{ id := "r1", userId := "u1", title := "Mine", type := .summary,
          content := "c", createdAt := 0, updatedAt := 0, size := "1 MB",
          status := .completed, downloadCount := 0, isPublic := false,
          tags := [] }], some .permissionDenied) ∧
    deleteReport
        (some { id := "u2", name := "B", email := "b@x.com",
                role := .user, userType := .general })
        "r1"
        [{ id := "r1", userId := "u1", title := "Mine", type := .summary,
           content := "c", createdAt := 0, updatedAt := 0, size := "1 MB",
           status := .completed, downloadCount := 0, isPublic := false,
           tags := [] }] =
      ([{ id := "r1", userId := "u1", title := "Mine", type := .summary,
          content := "c", createdAt := 0, updatedAt := 0, size := "1 MB",
          status := .completed, downloadCount := 0, isPublic := false,
          tags := [] }], some .permissionDenied) :=
  update_delete_report_permission_denied
    { id := "u2", name := "B", email := "b@x.com",
      role := .user, userType := .general }
    [{ id := "r1", userId := "u1", title := "Mine", type := .summary,
       content := "c", createdAt := 0, updatedAt := 0, size := "1 MB",
       status := .completed, downloadCount := 0, isPublic := false,
       tags := [] }]
    { id := "r1", userId := "u1", title := "Mine", type := .summary,
      content := "c", createdAt := 0, updatedAt := 0, size := "1 MB",
      status := .completed, downloadCount := 0, isPublic := false,
      tags := [] }
    { title := some "hacked" } 5 (by decide) (by decide) (by decide)

/-- C5 counterexample: the store's `createReport` performs *no* title
validation — an authenticated create with an empty title persists the
record (store grows from 0 to 1 entries) and reports no error at all. -/
theorem createReport_empty_title_persists :
    (createReport
        (some { id := "u1", name := "A", email := "a@x.com",
                role := .user, userType := .general })
        { title := "", type := .summary, content := "c", size := "1 MB",
          status := .completed, isPublic := false, tags := [] }
        7 []).1.length = 1 ∧
    (createReport
        (some { id := "u1", name := "A", email := "a@x.com",
                role := .user, userType := .general })
        { title := "", type := .summary, content := "c", size := "1 MB",
          status := .completed, isPublic := false, tags := [] }
        7 []).2 = none := by
  constructor <;> rfl

/-- C5 (amended): the empty-title rejection lives in the UI handler, not the
store.  `handleCreateReport` with a blank title returns a validation error
and leaves the report store unchanged (it never calls `createReport`),
while the store's own `createReport` persists any authenticated draft —
empty title included — growing the store by exactly one record. -/
theorem empty_title_rejected_in_ui_only
    (user : Option User) (title : String) (type : ReportType)
    (content : String) (tags : List String) (isPublic : Bool) (now : Nat)
    (reports : List Report) (u : User) (d : ReportDraft)
    (hblank : trimmedIsEmpty title = true) :
    handleCreateReport user title type content tags isPublic now reports =
      (reports, some .validationError) ∧
    (createReport (some u) d now reports).1.length = reports.length + 1 ∧
    (createReport (some u) d now reports).2 = none := by
  refine ⟨?_, ?_, rfl⟩
  · simp [handleCreateReport, hblank]
  · simp [createReport]

/-- Witness for C5's amended statement at a blank title and an empty-title
draft. -/
theorem empty_title_rejected_in_ui_only_witness :
    handleCreateReport
        (some { id := "u1", name := "A", email := "a@x.com",
                role := .user, userType := .general })
        " " .summary "c" [] false 7 [] = ([], some .validationError) ∧
    (createReport
        (some { id := "u1", name := "A", email := "a@x.com",
                role := .user, userType := .general })
        { title := "", type := .summary, content := "c", size := "1 MB",
          status := .completed, isPublic := false, tags := [] }
        7 []).1.length = 0 + 1 ∧
    (createReport
        (some { id := "u1", name := "A", email := "a@x.com",
                role := .user, userType := .general })
        { title := "", type := .summary, content := "c", size := "1 MB",
          status := .completed, isPublic := false, tags := [] }
        7 []).2 = none :=
  empty_title_rejected_in_ui_only _ " " .summary "c" [] false 7 [] _ _
    (by decide)

/-- C7: a failed export leaves the report store (hence every
`downloadCount`) unchanged; after a successful export by an actor allowed
to touch the record, the located report's `downloadCount` is replaced by
exactly its old value plus one; and the store can only change when the
export succeeded. -/
theorem downloadCount_increment_only_on_success :
    (∀ user id format now reports,
        (downloadReport user id format false now reports).1 = reports) ∧
    (∀ user id format now reports r,
        reports.find? (fun x => x.id == id) = some r →
        (isAdminOf user || sameOwner user r.userId) = true →
        ∃ r', (downloadReport user id format true now reports).1 =
                reports.map (fun x => if x.id == id then r' else x) ∧
              r'.downloadCount = r.downloadCount + 1) ∧
    (∀ user id format exportOk now reports,
        (downloadReport user id format exportOk now reports).1 ≠ reports →
        exportOk = true) := by
  have hfail : ∀ user id format now reports,
      (downloadReport user id format false now reports).1 = reports := by
    intro user id format now reports
    unfold downloadReport
    cases hf : reports.find? (fun x => x.id == id) with
    | none => rfl
    | some report =>
        split <;> simp
        split <;> rfl
  refine ⟨hfail, ?_, ?_⟩
  · intro user id format now reports r hFind hAllow
    have hguard : (!isAdminOf user && !sameOwner user r.userId) = false := by
      rcases Bool.or_eq_true_iff.mp hAllow with h | h <;> simp [h]
    have hguard3 :
        (!isAdminOf user && !sameOwner user r.userId && !r.isPublic) = false := by
      rw [hguard, Bool.false_and]
    refine ⟨applyPatch r { downloadCount := some (r.downloadCount + 1) } now,
      ?_, rfl⟩
    unfold downloadReport
    rw [hFind]
    show (if (!isAdminOf user && !sameOwner user r.userId && !r.isPublic) = true
        then (reports, some StoreError.permissionDenied)
        else if true = true then
          updateReport user id { downloadCount := some (r.downloadCount + 1) }
            now reports
        else (reports, some StoreError.exportFailed)).1 = _
    rw [hguard3, if_neg (by simp), if_pos rfl]
    unfold updateReport
    rw [hFind]
    show (if (!isAdminOf user && !sameOwner user r.userId) = true
        then (reports, some StoreError.permissionDenied)
        else (reports.map (fun x =>
          if x.id == id then
            applyPatch r { downloadCount := some (r.downloadCount + 1) } now
          else x), none)).1 = _
    rw [hguard, if_neg (by simp)]
  · intro user id format exportOk now reports hne
    cases exportOk with
    | true => rfl
    | false => exact absurd (hfail user id format now reports) hne

/-- Witness for C7's success branch: the owner downloads their own report
after a successful export and the count goes from 3 to 4. -/
theorem downloadCount_increment_only_on_success_witness :
    ∃ r', (downloadReport
        (some { id := "u1", name := "A", email := "a@x.com",
                role := .user, userType := .general })
        "r1" .pdf true 9
        [{ id := "r1", userId := "u1", title := "Mine", type := .summary,
           content := "c", createdAt := 0, updatedAt := 0, size := "1 MB",
           status := .completed, downloadCount := 3, isPublic := false,
           tags := [] }]).1 =
      [{ id := "r1", userId := "u1", title := "Mine", type := .summary,
         content := "c", createdAt := 0, updatedAt := 0, size := "1 MB",
         status := .completed, downloadCount := 3, isPublic := false,
         tags := [] }].map
        (fun x => if x.id == "r1" then r' else x) ∧
      r'.downloadCount = 3 + 1 :=
  downloadCount_increment_only_on_success.2.1
    (some { id := "u1", name := "A", email := "a@x.com",
            role := .user, userType := .general })
    "r1" .pdf 9
    [{ id := "r1", userId := "u1", title := "Mine", type := .summary,
       content := "c", createdAt := 0, updatedAt := 0, size := "1 MB",
       status := .completed, downloadCount := 3, isPublic := false,
       tags := [] }]
    { id := "r1", userId := "u1", title := "Mine", type := .summary,
      content := "c", createdAt := 0, updatedAt := 0, size := "1 MB",
      status := .completed, downloadCount := 3, isPublic := false,
      tags := [] }
    (by decide) (by decide)

/-- For a non-admin user, `getAllClassifications` is the own-records
filter. -/
theorem getAllClassifications_nonadmin (u : User) (hu : isAdminU u = false)
    (mem : List ClassificationResult) (st : Storage) :
    getAllClassifications (some u) mem st =
      getUserClassifications (some u) mem := by
  simp [getAllClassifications, isAdminOf, hu]

/-- For an admin user, membership in `getAllClassifications` is membership in
some registered user's stored list (sorting permutes, never drops). -/
theorem mem_getAllClassifications_admin (u : User) (hu : isAdminU u = true)
    (mem : List ClassificationResult) (st : Storage)
    (x : ClassificationResult) :
    x ∈ getAllClassifications (some u) mem st ↔
      ∃ v ∈ st.registeredUsers, x ∈ loadClassifications st v.id := by
  simp only [getAllClassifications, isAdminOf, hu, Bool.not_true,
    Bool.false_eq_true, if_false]
  rw [(List.perm_insertionSort newestFirst _).mem_iff]
  simp [List.mem_flatMap]

/-- C4: after actor `a` creates a record, `a`'s listing contains it; the
listing of any other non-admin actor `b` never contains it (whatever `b`'s
session happens to have loaded); and an admin's listing contains every
registered tenant's stored records. -/
theorem classification_list_tenant_scoping
    (a b adm : User) (d : ClassificationDraft) (now : Nat)
    (classifications : List ClassificationResult) (st : Storage)
    (hareg : a ∈ st.registeredUsers)
    (hneq : b.id ≠ a.id) (hbAdmin : isAdminU b = false)
    (hadm : isAdminU adm = true) :
    mkClassification a d now ∈
      getAllClassifications (some a)
        (addClassification (some a) d now classifications st).1
        (addClassification (some a) d now classifications st).2 ∧
    (∀ memB : List ClassificationResult,
        mkClassification a d now ∉
          getAllClassifications (some b) memB
            (addClassification (some a) d now classifications st).2) ∧
    (∀ (u : User) (x : ClassificationResult) (mem : List ClassificationResult),
        u ∈ (addClassification (some a) d now classifications st).2.registeredUsers →
        x ∈ loadClassifications
              (addClassification (some a) d now classifications st).2 u.id →
        x ∈ getAllClassifications (some adm) mem
              (addClassification (some a) d now classifications st).2) := by
  have hrUser : (mkClassification a d now).userId = a.id := rfl
  have hst2 : (addClassification (some a) d now classifications st).2 =
      storeClassifications st a.id (mkClassification a d now :: classifications) :=
    rfl
  have hload : loadClassifications
      (addClassification (some a) d now classifications st).2 a.id =
      mkClassification a d now :: classifications := by
    rw [hst2]; simp [loadClassifications, storeClassifications]
  have hreg : (addClassification (some a) d now classifications st).2.registeredUsers =
      st.registeredUsers := rfl
  refine ⟨?_, ?_, ?_⟩
  · by_cases hA : isAdminU a
    · rw [mem_getAllClassifications_admin a hA]
      refine ⟨a, ?_, ?_⟩
      · rw [hreg]; exact hareg
      · rw [hload]; exact List.mem_cons_self _ _
    · rw [getAllClassifications_nonadmin a (by simpa using hA)]
      simp only [getUserClassifications]
      refine List.mem_filter.mpr ⟨List.mem_cons_self _ _, ?_⟩
      simp [hrUser]
  · intro memB hmem
    rw [getAllClassifications_nonadmin b hbAdmin] at hmem
    simp only [getUserClassifications] at hmem
    have hBeq := (List.mem_filter.mp hmem).2
    rw [hrUser] at hBeq
    have hid : a.id = b.id := by simpa using hBeq
    exact hneq hid.symm
  · intro u x mem hu hx
    rw [mem_getAllClassifications_admin adm hadm]
    exact ⟨u, hu, hx⟩

/-- Witness for C4: `sampleOwner` creates a record; their own listing shows
it, `sampleOther`'s listing does not, and the admin's listing does. -/
theorem classification_list_tenant_scoping_witness :
    mkClassification sampleOwner sampleDraft 42 ∈
      getAllClassifications (some sampleOwner)
        (addClassification (some sampleOwner) sampleDraft 42 [] sampleStorage).1
        (addClassification (some sampleOwner) sampleDraft 42 [] sampleStorage).2 ∧
    mkClassification sampleOwner sampleDraft 42 ∉
      getAllClassifications (some sampleOther) []
        (addClassification (some sampleOwner) sampleDraft 42 [] sampleStorage).2 ∧
    mkClassification sampleOwner sampleDraft 42 ∈
      getAllClassifications (some sampleAdmin) []
        (addClassification (some sampleOwner) sampleDraft 42 [] sampleStorage).2 :=
  ⟨(classification_list_tenant_scoping sampleOwner sampleOther sampleAdmin
      sampleDraft 42 [] sampleStorage (by decide) (by decide) (by decide)
      (by decide)).1,
   (classification_list_tenant_scoping sampleOwner sampleOther sampleAdmin
      sampleDraft 42 [] sampleStorage (by decide) (by decide) (by decide)
      (by decide)).2.1 [],
   (classification_list_tenant_scoping sampleOwner sampleOther sampleAdmin
      sampleDraft 42 [] sampleStorage (by decide) (by decide) (by decide)
      (by decide)).2.2 sampleOwner (mkClassification sampleOwner sampleDraft 42)
      [] (by decide) (by decide)⟩

/-- C6 counterexample: the claim's no-op condition — "an entry with
identical (kind, message) was inserted within the last 5 seconds" — is not
what the code checks.  The dedup scan only sees the current 10-entry
buffer: after `(success, "Saved")` is inserted at t = 0 ms and ten distinct
notifications evict it, a `(success, "Saved")` call at t = 3000 ms (well
within 5 seconds of the first insertion) is *not* a no-op — it inserts. -/
theorem notify_dedup_window_eviction_escape :
    showSuccess "Saved" "Success" 3000
        ((List.range 10).foldl
          (fun acc i => showSuccess (toString i) "Success" (100 * (i + 1)) acc)
          (showSuccess "Saved" "Success" 0 [])) ≠
      (List.range 10).foldl
        (fun acc i => showSuccess (toString i) "Success" (100 * (i + 1)) acc)
        (showSuccess "Saved" "Success" 0 []) := by
  decide

/-- C6 (amended): the dedup no-op applies when an identical
`(kind, message)` entry inserted within the last 5 seconds is *still in the
10-entry buffer*; under that reading, two `showSuccess` calls with the same
message within 2 seconds (starting from a non-duplicating buffer of at most
9 entries) store exactly one notification and raise `unreadCount` by exactly
1; the buffer never holds two same-`(kind, message)` entries with
timestamps less than 5 seconds apart, an invariant preserved by every
notify call (under a monotonic clock) and by `markAsRead`. -/
theorem notify_dedup_buffer_semantics :
    (∀ kind title message now l,
        isRecentDuplicate kind message now l = true →
        showNotification kind message title now l = l) ∧
    (∀ title₁ title₂ message (l : List Notification) now₁ now₂,
        isRecentDuplicate .success message now₁ l = false →
        now₁ ≤ now₂ → now₂ - now₁ ≤ 2000 → l.length ≤ 9 →
        showSuccess message title₂ now₂ (showSuccess message title₁ now₁ l) =
          showSuccess message title₁ now₁ l ∧
        unreadCount
            (showSuccess message title₂ now₂ (showSuccess message title₁ now₁ l)) =
          unreadCount l + 1) ∧
    (∀ kind title message now (l : List Notification),
        (∀ n ∈ l, n.timestamp ≤ now) → l.Pairwise separated →
        (showNotification kind message title now l).Pairwise separated) ∧
    (∀ id (l : List Notification),
        l.Pairwise separated → (markAsRead id l).Pairwise separated) := by
  refine ⟨?_, ?_, ?_, ?_⟩
  · intro kind title message now l h
    simp [showNotification, h]
  · intro title₁ title₂ message l now₁ now₂ hnd hle hwin hlen
    have htake : l.take 9 = l := List.take_of_length_le hlen
    have hl1 : showSuccess message title₁ now₁ l =
        mkNotification .success title₁ message now₁ :: l := by
      simp [showSuccess, showNotification, hnd, addNotification, htake]
    have hdup2 : isRecentDuplicate .success message now₂
        (mkNotification .success title₁ message now₁ :: l) = true := by
      simp only [isRecentDuplicate, List.any_cons, Bool.or_eq_true]
      left
      simp [mkNotification]
      omega
    constructor
    · rw [hl1]
      simp [showSuccess, showNotification, hdup2]
    · rw [hl1]
      simp only [showSuccess, showNotification, hdup2, if_true]
      simp [unreadCount, mkNotification, List.filter]
  · intro kind title message now l hts hp
    unfold showNotification
    by_cases hd : isRecentDuplicate kind message now l
    · rw [if_pos hd]; exact hp
    · rw [if_neg hd]
      unfold addNotification
      refine List.Pairwise.cons ?_ (hp.sublist (List.take_sublist 9 l))
      intro x hx htype hmsg
      have hxl : x ∈ l := List.take_subset 9 l hx
      simp only [isRecentDuplicate, List.any_eq_true, not_exists, not_and,
        Bool.and_eq_true, beq_iff_eq, decide_eq_true_eq, not_lt] at hd
      have hxmsg : x.message = message := hmsg.symm
      have hxkind : x.type = kind := htype.symm
      have hge : 5000 ≤ now - x.timestamp := hd x hxl ⟨hxmsg, hxkind⟩
      left
      exact hge
  · intro id l hp
    unfold markAsRead
    rw [List.pairwise_map]
    refine hp.imp ?_
    intro a b hab
    by_cases ha : a.id == id <;> by_cases hb : b.id == id <;>
      simp only [ha, hb, if_true, if_false, Bool.false_eq_true] <;>
      exact fun ht hm => hab ht hm

/-- Witness for C6's amended statement: two `(success, "Saved")` calls 1.5 s
apart on an empty buffer store one notification and raise the unread count
from 0 to 1. -/
theorem notify_dedup_buffer_semantics_witness :
    showSuccess "Saved" "S2" 1500 (showSuccess "Saved" "S1" 0 []) =
      showSuccess "Saved" "S1" 0 [] ∧
    unreadCount (showSuccess "Saved" "S2" 1500 (showSuccess "Saved" "S1" 0 [])) =
      unreadCount ([] : List Notification) + 1 :=
  notify_dedup_buffer_semantics.2.1 "S1" "S2" "Saved" [] 0 1500
    (by decide) (by decide) (by decide) (by decide)

end EcoVision
